import Mathlib

/-!
# Verification of the jaiminho-notificacoes message decision pipeline

This file gives a shallow embedding, in Lean 4, of the core decision
pipeline of the `jaiminho_notificacoes` repository and proves the spec's
testable properties about it.

Embedded modules (Python source → Lean definitions):

* `core/tenant.py` — `TenantResolver` / `TenantIsolationMiddleware`
* `processing/urgency_engine.py` — `UrgencyRuleEngine` / `KeywordMatcher`
* `processing/agents.py` — `UrgencyAgent` / `ClassificationAgent`
* `processing/orchestrator.py` — `MessageProcessingOrchestrator`

Modelling conventions:

* Python `float` confidences are modelled as `ℚ`; every constant in the
  source is a short decimal (0.75, 0.85, …) and every comparison in the
  claims happens at that granularity, where rational and IEEE behaviour
  agree.
* Python strings are Lean `String`s; `len`, slicing and `in` are modelled
  at codepoint level (`String.length`, explicit slice helpers, substring
  search), matching Python's codepoint semantics.  `str.lower()` is
  modelled by `pyLower` (ASCII case folding; all keyword constants of
  the source are already lower-case) and `str.strip()` by `pyStrip`.
* External collaborators (DynamoDB repository, phone-owner lookup, the
  LLM HTTP call, SHA-256) are modelled as explicit function parameters;
  an exception raised inside a `try:` block is modelled by an
  `Option String` / `Except String _` parameter carrying the message of
  the raised exception.
* Compiled regular-expression pattern lists (`match_patterns` inputs) are
  modelled as abstract functions `String → List String` standing for
  `pattern.findall`; the source's guard `if not text: return []` is kept
  explicitly.  All claims proved here are independent of the concrete
  pattern semantics and are stated for every such function.
* Wall-clock timestamps and logging calls are side effects with no
  influence on any decision; they are dropped from the embedding.
-/

/-! ## Python string helpers -/

/-- Python's `needle in haystack` substring test. -/
def strContainsSub (hay needle : String) : Bool :=
  decide (needle.data <:+: hay.data)

/-- Python's `s.lower()` (ASCII case folding: every keyword constant in
the source is already lower-case). -/
def pyLower (s : String) : String :=
  ⟨s.data.map Char.toLower⟩

/-- Python's `s.strip()`: drop leading and trailing whitespace. -/
def pyStrip (s : String) : String :=
  ⟨(s.data.dropWhile Char.isWhitespace).reverse.dropWhile Char.isWhitespace |>.reverse⟩

/-- Python's `s[:m]` slice for an `Int` bound (negative bounds count from
the end, as in Python). -/
def pySliceTo (s : String) (m : Int) : String :=
  if 0 ≤ m then ⟨s.data.take m.toNat⟩
  else ⟨s.data.take ((s.length : Int) + m).toNat⟩

/-- Python truthiness of an optional string (`None` and `""` are falsy). -/
def truthyOpt (s : Option String) : Bool :=
  match s with
  | some v => v ≠ ""
  | none => false

/-- Python's `a or b or ""` over two optional strings. -/
def pyOrStr (a b : Option String) : String :=
  match a with
  | some v => if v ≠ "" then v else (match b with
      | some w => if w ≠ "" then w else ""
      | none => "")
  | none => (match b with
      | some w => if w ≠ "" then w else ""
      | none => "")

/-! ## Data model (`persistence/models.py`) -/

/-- `MessageContent` — the fields the pipeline reads. -/
structure MessageContent where
  text : Option String
  caption : Option String
deriving DecidableEq

/-- `MessageMetadata` — the fields the pipeline reads. -/
structure MessageMetadata where
  is_group : Bool
deriving DecidableEq

/-- `NormalizedMessage` — the fields the decision pipeline reads (media
urls, source block and security block are never consulted by it). -/
structure NormalizedMessage where
  message_id : String
  tenant_id : String
  user_id : String
  sender_phone : String
  sender_name : Option String
  content : MessageContent
  metadata : MessageMetadata
deriving DecidableEq

/-- `UrgencyDecision` (`urgency_engine.py`). -/
inductive UrgencyDecision where
  | urgent
  | not_urgent
  | undecided
deriving DecidableEq

/-- The wire value of an `UrgencyDecision` (`str, Enum` values). -/
def UrgencyDecision.value : UrgencyDecision → String
  | .urgent => "urgent"
  | .not_urgent => "not_urgent"
  | .undecided => "undecided"

/-- `RuleMatch` (`urgency_engine.py`). -/
structure RuleMatch where
  decision : UrgencyDecision
  rule_name : String
  confidence : ℚ
  matched_keywords : List String
  reasoning : String
deriving DecidableEq

/-! ## `KeywordMatcher` (`processing/urgency_engine.py`) -/

/-- The `KeywordMatcher` state: the three keyword sets (modelled as
duplicate-free lists, since Python set literals deduplicate) and the three
compiled pattern lists (modelled as abstract `findall` functions). -/
structure KeywordMatcher where
  financial_keywords : List String
  security_keywords : List String
  marketing_keywords : List String
  financial_patterns : String → List String
  security_patterns : String → List String
  marketing_patterns : String → List String

/-- `KeywordMatcher.match_keywords`: case-insensitive substring matching,
returning the keywords that occur in the text. -/
def match_keywords (text : String) (keyword_set : List String) : List String :=
  if text = "" then []
  else keyword_set.filter (fun k => strContainsSub (pyLower text) (pyLower k))

/-- `KeywordMatcher.match_patterns`: `findall` accumulation over the
compiled patterns, with the source's empty-text guard. -/
def match_patterns (text : String) (patterns : String → List String) : List String :=
  if text = "" then [] else patterns text

/-- The `financial_keywords` set of the source, in literal order with
set-literal duplicates removed. -/
def financial_keywords_src : List String :=
  ["banco", "conta", "saldo", "transferência", "pix", "ted", "doc",
   "cartão", "crédito", "débito", "fatura", "boleto", "pagamento",
   "bank", "account", "balance", "transfer", "card", "credit", "debit",
   "invoice", "payment", "banking",
   "cuenta", "transferencia", "tarjeta", "factura", "pago", "pagos",
   "transação", "compra", "cobrança", "estorno", "aprovado", "negado",
   "pendente", "processando",
   "transaction", "purchase", "charge", "refund", "approved", "denied",
   "pending", "processing",
   "transacción", "cobro", "devolución", "aprobado", "pendiente", "procesando",
   "r$", "brl", "usd", "euro", "€", "$", "¥", "£",
   "mxn", "ars", "clp", "cop", "eur",
   "fraude", "suspeito", "bloqueio", "bloqueado", "tentativa",
   "acesso não autorizado", "roubo", "furto",
   "fraud", "suspicious", "blocked", "attempt", "unauthorized access",
   "theft", "theft attempt",
   "sospechoso", "intento", "acceso no autorizado", "robo", "hurto"]

/-- The `security_keywords` set of the source, in literal order with
set-literal duplicates removed. -/
def security_keywords_src : List String :=
  ["senha", "código", "autenticação", "verificação", "verificar",
   "confirmar", "confirmação", "token", "2fa", "otp",
   "password", "code", "authentication", "verification", "verify",
   "confirm", "confirmation",
   "contraseña", "autenticación", "verificación",
   "alerta", "aviso", "emergência", "urgente", "crítico",
   "atenção", "ação requerida", "ação necessária", "risco",
   "alert", "warning", "emergency", "urgent", "critical",
   "attention", "action required", "risk", "immediately",
   "advertencia", "emergencia", "atención", "acción requerida", "riesgo",
   "expira", "expiração", "prazo", "prazo limite",
   "expires", "expiration", "deadline", "time limit",
   "expiración", "plazo", "límite de tiempo"]

/-- The `marketing_keywords` set of the source, in literal order with
set-literal duplicates removed. -/
def marketing_keywords_src : List String :=
  ["promoção", "oferta", "desconto", "newsletter",
   "campanha", "anúncio", "não perca", "black friday",
   "cyber monday", "liquidação", "cupom", "voucher", "grátis", "ganhe",
   "sorteio", "concurso", "cancelar inscrição", "sair da lista",
   "promotion", "offer", "discount",
   "campaign", "advertisement", "don\x27t miss",
   "sale", "coupon", "free", "win", "raffle",
   "contest", "unsubscribe", "leave list",
   "promoción", "descuento", "boletín",
   "campaña", "anuncio", "no pierda", "viernes negro",
   "cyber lunes", "cupón", "bono", "gratis", "gane",
   "sorteo", "cancelar suscripción", "salir de la lista",
   "clique aqui", "saiba mais", "conheça", "exclusivo", "limitado",
   "apenas hoje", "enquanto durar", "acesse agora",
   "click here", "learn more", "exclusive", "limited",
   "today only", "while stocks last", "access now",
   "haz clic aquí", "aprende más", "solo hoy", "mientras exista",
   "accede ahora"]

/-- A `KeywordMatcher` with the source's keyword sets and a given triple
of compiled pattern semantics. -/
def mkKeywordMatcher (fin sec mkt : String → List String) : KeywordMatcher :=
  { financial_keywords := financial_keywords_src
    security_keywords := security_keywords_src
    marketing_keywords := marketing_keywords_src
    financial_patterns := fin
    security_patterns := sec
    marketing_patterns := mkt }

/-! ## `UrgencyRuleEngine` (`processing/urgency_engine.py`) -/

/-- `UrgencyRuleEngine._extract_text`: truthy text parts joined by a
space. -/
def extract_text (msg : NormalizedMessage) : String :=
  let parts :=
    (match msg.content.text with
     | some s => if s ≠ "" then [s] else []
     | none => []) ++
    (match msg.content.caption with
     | some s => if s ≠ "" then [s] else []
     | none => [])
  String.intercalate " " parts

/-- `UrgencyRuleEngine._check_security`. -/
def check_security (m : KeywordMatcher) (text : String) : Option RuleMatch :=
  if text = "" then none
  else
    let keyword_matches := match_keywords text m.security_keywords
    let pattern_matches := match_patterns text m.security_patterns
    let all_matches := keyword_matches ++ pattern_matches
    if all_matches ≠ [] then
      some { decision := .urgent
             rule_name := "security_content"
             confidence := min (99/100 : ℚ) (80/100 + all_matches.length * (5/100))
             matched_keywords := all_matches.take 5
             reasoning := "Security keywords/patterns detected: " ++
               toString all_matches.length ++ " matches" }
    else none

/-- `UrgencyRuleEngine._check_financial`. -/
def check_financial (m : KeywordMatcher) (text : String) : Option RuleMatch :=
  if text = "" then none
  else
    let keyword_matches := match_keywords text m.financial_keywords
    let pattern_matches := match_patterns text m.financial_patterns
    let all_matches := keyword_matches ++ pattern_matches
    if all_matches ≠ [] then
      some { decision := .urgent
             rule_name := "financial_content"
             confidence := min (99/100 : ℚ) (85/100 + all_matches.length * (5/100))
             matched_keywords := all_matches.take 5
             reasoning := "Financial keywords/patterns detected: " ++
               toString all_matches.length ++ " matches" }
    else none

/-- `UrgencyRuleEngine._check_marketing` (needs at least 2 matches). -/
def check_marketing (m : KeywordMatcher) (text : String) : Option RuleMatch :=
  if text = "" then none
  else
    let keyword_matches := match_keywords text m.marketing_keywords
    let pattern_matches := match_patterns text m.marketing_patterns
    let all_matches := keyword_matches ++ pattern_matches
    if all_matches.length ≥ 2 then
      some { decision := .not_urgent
             rule_name := "marketing_content"
             confidence := min (95/100 : ℚ) (75/100 + all_matches.length * (5/100))
             matched_keywords := all_matches.take 5
             reasoning := "Marketing keywords/patterns detected: " ++
               toString all_matches.length ++ " matches" }
    else none

/-- `UrgencyRuleEngine.evaluate`, with rules in the source's priority
order: group, security, financial, marketing, empty-or-short, undecided.
(The `_stats` counters of the source are observability only and do not
influence evaluation; they are dropped.) -/
def evaluate (m : KeywordMatcher) (msg : NormalizedMessage) : RuleMatch :=
  let text := extract_text msg
  if msg.metadata.is_group then
    { decision := .not_urgent
      rule_name := "group_message"
      confidence := 95/100
      matched_keywords := []
      reasoning := "Group messages are not urgent by default" }
  else
    match check_security m text with
    | some r => r
    | none =>
      match check_financial m text with
      | some r => r
      | none =>
        match check_marketing m text with
        | some r => r
        | none =>
          if text = "" ∨ (pyStrip text).length < 10 then
            { decision := .not_urgent
              rule_name := "empty_or_short"
              confidence := 7/10
              matched_keywords := []
              reasoning := "Empty or very short message" }
          else
            { decision := .undecided
              rule_name := "no_match"
              confidence := 0
              matched_keywords := []
              reasoning := "No deterministic rules matched, LLM evaluation needed" }

/-! ## Tenant isolation (`core/tenant.py`) -/

/-- `WAPIInstance` (`persistence/models.py`): the tenant-store record
returned by `WAPIInstanceRepository`. -/
structure WAPIInstance where
  tenant_id : String
  user_id : String
  wapi_instance_id : String
  instance_name : String
  phone_number : String
  status : String
  api_key_hash : String
deriving DecidableEq

/-- `TenantContext` (`core/tenant.py`). -/
structure TenantContext where
  tenant_id : String
  user_id : String
  instance_id : String
  phone_number : String
  status : String
deriving DecidableEq

/-- `TenantContext.is_active`. -/
def TenantContext.is_active (c : TenantContext) : Bool :=
  c.status = "active"

/-- The `TenantContext` constructor including `__post_init__` validation:
`ValueError` (modelled as `none`) when any of the three identifying
fields is empty.  In `resolve_from_instance` that exception is caught by
the surrounding `except` and turned into a `None` resolution. -/
def mkTenantContext (tenant_id user_id instance_id phone_number status : String) :
    Option TenantContext :=
  if tenant_id = "" ∨ user_id = "" ∨ instance_id = "" then none
  else some ⟨tenant_id, user_id, instance_id, phone_number, status⟩

/-- `TenantResolver._normalize_phone`: digits only (`""` for `None`).
Python's `str.isdigit` on the phone alphabet coincides with
`Char.isDigit`. -/
def normalize_phone (phone : Option String) : String :=
  match phone with
  | none => ""
  | some p => ⟨p.data.filter Char.isDigit⟩

/-- The resolver's in-memory cache `_cache : Dict[str, TenantContext]`,
modelled as an association list with unique keys. -/
abbrev TenantCache := List (String × TenantContext)

/-- `self._cache.get(instance_id)`. -/
def cache_get (cache : TenantCache) (instance_id : String) : Option TenantContext :=
  match cache with
  | [] => none
  | (k, v) :: rest => if k = instance_id then some v else cache_get rest instance_id

/-- `TenantResolver._add_to_cache`: evict-all when the cache holds more
than 1000 entries, then store (dict assignment replaces any entry with
the same key). -/
def add_to_cache (cache : TenantCache) (instance_id : String) (context : TenantContext) :
    TenantCache :=
  let cache : TenantCache := if 1000 < cache.length then [] else cache
  (cache.filter (fun kv => kv.1 ≠ instance_id)) ++ [(instance_id, context)]

/-- The uncached part of `TenantResolver.resolve_from_instance` (the body
after the cache check): store lookup, API-key hash comparison, status
check, context construction, cache insertion.  `hashFn` stands for
`hashlib.sha256(·).hexdigest()` and `repo` for
`WAPIInstanceRepository.get_by_instance_id`. -/
def resolve_uncached (hashFn : String → String) (repo : String → Option WAPIInstance)
    (cache : TenantCache) (instance_id : String) (api_key : Option String) :
    Option TenantContext × TenantCache :=
  match repo instance_id with
  | none => (none, cache)
  | some instanceRecord =>
    let keyRejected : Bool :=
      match api_key with
      | some k => decide (instanceRecord.api_key_hash = "" ∨ hashFn k ≠ instanceRecord.api_key_hash)
      | none => false
    if keyRejected then (none, cache)
    else if instanceRecord.status ≠ "active" ∧ instanceRecord.status ≠ "suspended" then
      (none, cache)
    else
      match mkTenantContext instanceRecord.tenant_id instanceRecord.user_id
          instanceRecord.wapi_instance_id instanceRecord.phone_number
          instanceRecord.status with
      | none => (none, cache)
      | some context => (some context, add_to_cache cache instance_id context)

/-- `TenantResolver.resolve_from_instance`: a cached **active** context is
returned as-is (before any credential or store check); otherwise the
uncached resolution body runs. -/
def resolve_from_instance (hashFn : String → String) (repo : String → Option WAPIInstance)
    (cache : TenantCache) (instance_id : String) (api_key : Option String) :
    Option TenantContext × TenantCache :=
  match cache_get cache instance_id with
  | some cached =>
    if cached.is_active then (some cached, cache)
    else resolve_uncached hashFn repo cache instance_id api_key
  | none => resolve_uncached hashFn repo cache instance_id api_key

/-- `TenantResolver.validate_phone_ownership`; `phoneOwner` stands for
`WAPIInstanceRepository.get_owner_by_phone`. -/
def validate_phone_ownership (phoneOwner : String → Option WAPIInstance)
    (sender_phone : String) (tenant_context : TenantContext) : Bool :=
  let sanitized_sender := normalize_phone (some sender_phone)
  let sanitized_expected := normalize_phone (some tenant_context.phone_number)
  if sanitized_sender = "" ∨ sanitized_expected = "" then false
  else if sanitized_sender ≠ sanitized_expected then false
  else
    match phoneOwner sanitized_sender with
    | some owner_record =>
      if owner_record.user_id ≠ tenant_context.user_id then false else true
    | none => true

/-- A raw webhook payload, restricted to the fields
`detect_cross_tenant_attempt` reads.  `tenant_id` / `user_id` are `none`
when the key is absent; string values carry Python truthiness (`""` is
falsy).  `has_other_keys` records whether the dict holds any further
entries (for the middleware's `if payload:` truthiness test). -/
structure RawPayload where
  tenant_id : Option String
  user_id : Option String
  has_other_keys : Bool
deriving DecidableEq

/-- Python truthiness of the payload dict (non-empty). -/
def RawPayload.isTruthy (p : RawPayload) : Bool :=
  p.tenant_id.isSome ∨ p.user_id.isSome ∨ p.has_other_keys

/-- `TenantResolver.detect_cross_tenant_attempt`. -/
def detect_cross_tenant_attempt (payload : RawPayload) (verified_tenant_id : String) : Bool :=
  let payload_tenant := payload.tenant_id
  let payload_user := payload.user_id
  if truthyOpt payload_tenant ∧ payload_tenant.getD "" ≠ verified_tenant_id then true
  else if truthyOpt payload_user then true
  else false

/-- `TenantIsolationMiddleware.validate_and_resolve`: resolution, status
check, phone-ownership check, cross-tenant payload check, short-circuiting
with the source's error map entries. -/
def validate_and_resolve (hashFn : String → String) (repo : String → Option WAPIInstance)
    (phoneOwner : String → Option WAPIInstance) (cache : TenantCache)
    (instance_id : String) (api_key : Option String) (sender_phone : Option String)
    (payload : Option RawPayload) :
    (Option TenantContext × List (String × String)) × TenantCache :=
  let (tenant_context, cache') := resolve_from_instance hashFn repo cache instance_id api_key
  match tenant_context with
  | none => ((none, [("instance_id", "Invalid or unauthorized instance")]), cache')
  | some context =>
    if ¬ context.is_active then
      ((none, [("status", "Tenant status is " ++ context.status)]), cache')
    else if truthyOpt sender_phone ∧
        ¬ validate_phone_ownership phoneOwner (sender_phone.getD "") context then
      ((none, [("phone_ownership", "Phone does not belong to this instance")]), cache')
    else if (match payload with
             | some p => p.isTruthy && detect_cross_tenant_attempt p context.tenant_id
             | none => false) then
      ((none, [("payload_forbidden_fields",
                "Payload attempted to override tenant/user context")]), cache')
    else ((some context, []), cache')

/-! ## `UrgencyAgent` (`processing/agents.py`) -/

/-- `UrgencyResult` (`agents.py`). -/
structure UrgencyResult where
  urgent : Bool
  reason : String
  confidence : ℚ
deriving DecidableEq

/-- `HistoricalInterruptionData` (`agents.py`) — the fields the
conservative logic reads. -/
structure HistoricalInterruptionData where
  sender_phone : String
  total_messages : ℕ
  urgent_count : ℕ
  not_urgent_count : ℕ
deriving DecidableEq

/-- `HistoricalInterruptionData.urgency_rate`. -/
def urgency_rate (h : HistoricalInterruptionData) : ℚ :=
  let total : ℕ := h.urgent_count + h.not_urgent_count
  if 0 < total then (h.urgent_count : ℚ) / (total : ℚ) else 0

/-- `UrgencyAgent.CONFIDENCE_THRESHOLD_URGENT`. -/
def CONFIDENCE_THRESHOLD_URGENT : ℚ := 75/100

/-- `UrgencyAgent.CONFIDENCE_THRESHOLD_KNOWN_SENDER`. -/
def CONFIDENCE_THRESHOLD_KNOWN_SENDER : ℚ := 65/100

/-- The low-confidence downgrade of Rule 1 of
`UrgencyAgent._apply_conservative_logic` (reason built without the
`f"{...:.2f}"` numeric interpolation, which carries no decision
content). -/
def rule1_downgrade (result : UrgencyResult) : UrgencyResult :=
  { urgent := false
    reason := "Confiança insuficiente para interromper. " ++ result.reason
    confidence := result.confidence }

/-- Rule 4 of `_apply_conservative_logic` (group messages need ≥ 0.90,
else downgrade and attenuate by ×0.7). -/
def conservative_rule4 (result : UrgencyResult) (isGroup : Bool) : UrgencyResult :=
  if result.urgent && isGroup && decide (result.confidence < 90/100) then
    { urgent := false
      reason := "Mensagem de grupo - requer confiança muito alta para interromper. " ++
        result.reason
      confidence := result.confidence * (7/10) }
  else result

/-- Rule 3 of `_apply_conservative_logic` (≥ 10 messages with urgency
rate < 10% need ≥ 0.85, else downgrade and attenuate by ×0.85). -/
def conservative_rule3 (result : UrgencyResult)
    (hist : Option HistoricalInterruptionData) (isGroup : Bool) : UrgencyResult :=
  if result.urgent &&
      (match hist with
       | some h => decide (10 ≤ h.total_messages ∧ urgency_rate h < 1/10)
       | none => false) &&
      decide (result.confidence < 85/100) then
    { urgent := false
      reason := "Histórico indica baixa urgência deste remetente. " ++ result.reason
      confidence := result.confidence * (85/100) }
  else conservative_rule4 result isGroup

/-- Rule 2 of `_apply_conservative_logic` (first contact needs ≥ 0.85,
else downgrade and attenuate by ×0.8). -/
def conservative_rule2 (result : UrgencyResult)
    (hist : Option HistoricalInterruptionData) (isGroup : Bool) : UrgencyResult :=
  if result.urgent &&
      (match hist with
       | some h => decide (h.total_messages = 0)
       | none => false) &&
      decide (result.confidence < 85/100) then
    { urgent := false
      reason := "Primeiro contato deste remetente - por segurança, não interromper. " ++
        result.reason
      confidence := result.confidence * (8/10) }
  else conservative_rule3 result hist isGroup

/-- `UrgencyAgent._apply_conservative_logic`: Rule 1 (base/known-sender
confidence threshold) followed by Rules 2–4.  Every downgrade in the
source returns immediately; rules that do not fire fall through to the
next rule with the unchanged result. -/
def apply_conservative_logic (result : UrgencyResult)
    (hist : Option HistoricalInterruptionData) (isGroup : Bool) : UrgencyResult :=
  if result.urgent && decide (result.confidence < CONFIDENCE_THRESHOLD_URGENT) then
    if (match hist with
        | some h => decide (5 ≤ h.total_messages)
        | none => false) then
      if result.confidence < CONFIDENCE_THRESHOLD_KNOWN_SENDER then
        rule1_downgrade result
      else conservative_rule2 result hist isGroup
    else rule1_downgrade result
  else conservative_rule2 result hist isGroup

/-- The outcome of `json.loads` + field extraction inside
`UrgencyAgent._parse_urgency_response`: either the extracted
`(urgent, confidence, reason)` triple or the raised
`JSONDecodeError`/`ValueError` message.  JSON wire parsing itself is
modelled abstractly by this type. -/
inductive UrgencyParseOutcome where
  | ok (urgent : Bool) (confidence : ℚ) (reason : String)
  | err (e : String)
deriving DecidableEq

/-- `UrgencyAgent._parse_urgency_response`: clamp the confidence to
`[0, 1]` on success; conservative `(False, 0.3)` fallback on a parse
error. -/
def parse_urgency_response (p : UrgencyParseOutcome) : UrgencyResult :=
  match p with
  | .ok urgent confidence reason =>
    { urgent := urgent
      reason := reason
      confidence := max 0 (min 1 confidence) }
  | .err e =>
    { urgent := false
      reason := "Erro ao processar resposta da análise: " ++ e
      confidence := 3/10 }

/-- The conservative response `UrgencyAgent._call_llm` produces when
`OPENAI_API_KEY` is not configured, as parsed by
`_parse_urgency_response`. -/
def missing_config_response : UrgencyParseOutcome :=
  .ok false (4/10) "API não configurada - por segurança, não interromper"

/-- The `try:` body of `UrgencyAgent.run`: early return for empty/short
text, early return for group messages, then historical-data fetch, LLM
call, response parse and conservative-override adjustment.

* `histArg` is the `historical_data` argument (`none` = not supplied);
  `histFetch` stands for `_fetch_historical_data`'s result.
* `api_key_set` is the `OPENAI_API_KEY` configuration state; `llm` stands
  for the parsed outcome of the external LLM response.
* Besides the `UrgencyResult`, the model returns whether `_call_llm` was
  invoked and whether `_fetch_historical_data` was invoked. -/
def urgency_agent_run (msg : NormalizedMessage)
    (histArg : Option HistoricalInterruptionData)
    (histFetch : HistoricalInterruptionData)
    (api_key_set : Bool) (llm : UrgencyParseOutcome) :
    UrgencyResult × Bool × Bool :=
  let text := pyOrStr msg.content.text msg.content.caption
  if text = "" ∨ (pyStrip text).length < 5 then
    ({ urgent := false
       reason := "Mensagem vazia ou muito curta para ser urgente"
       confidence := 85/100 }, false, false)
  else if msg.metadata.is_group then
    ({ urgent := false
       reason := "Mensagens de grupo não são consideradas urgentes por padrão"
       confidence := 90/100 }, false, false)
  else
    let historical_data := histArg.getD histFetch
    let parsed :=
      if api_key_set then parse_urgency_response llm
      else parse_urgency_response missing_config_response
    (apply_conservative_logic parsed (some historical_data) msg.metadata.is_group,
     true, histArg.isNone)

/-- The `except Exception` handler of `UrgencyAgent.run`: any exception
raised inside the body is caught and converted into this conservative
non-urgent result — it is never propagated to the caller. -/
def urgency_run_exception_fallback (e : String) : UrgencyResult :=
  { urgent := false
    reason := "Erro na análise: " ++ e ++ ". Por segurança, não interromper."
    confidence := 1/2 }

/-! ## `ClassificationAgent` (`processing/agents.py`) -/

/-- `ClassificationResult` (`agents.py`). -/
structure ClassificationResult where
  category : String
  summary : String
  routing : String
  reasoning : String
  confidence : ℚ
deriving DecidableEq

/-- `ClassificationAgent.CATEGORIES`. -/
def CATEGORIES : List String :=
  ["💼 Trabalho e Negócios",
   "👨‍👩‍👧 Família e Amigos",
   "📦 Entregas e Compras",
   "💰 Financeiro",
   "🏥 Saúde",
   "🎉 Eventos e Convites",
   "📰 Informação Geral",
   "🤖 Automação e Bots",
   "❓ Outros"]

/-- The field values `json.loads` extracts inside
`ClassificationAgent._parse_classification_response` (the `.get`
defaults already applied; JSON wire parsing modelled abstractly). -/
structure ParsedClassification where
  category : String
  summary : String
  routing : String
  reasoning : String
  confidence : ℚ
deriving DecidableEq

/-- `ClassificationAgent._parse_classification_response` on successfully
decoded JSON: category whitelisting, summary truncation to 150 with an
ellipsis, routing whitelisting, confidence clamping. -/
def parse_classification_response (d : ParsedClassification) : ClassificationResult :=
  let category := if d.category ∈ CATEGORIES then d.category else "❓ Outros"
  let summary :=
    if 150 < d.summary.length then pySliceTo d.summary 147 ++ "..." else d.summary
  let routing :=
    if pyLower d.routing ∈ ["immediate", "digest", "spam"] then pyLower d.routing
    else "digest"
  let confidence := max 0 (min 1 d.confidence)
  { category := category
    summary := summary
    routing := routing
    reasoning := d.reasoning
    confidence := confidence }

/-- `ClassificationAgent._apply_routing_logic`: the three reconciliation
overrides (high-confidence urgent ⇒ immediate; low urgency confidence ⇒
demote immediate to digest; confident not-urgent ⇒ demote immediate to
digest), applied as the source's `if/elif/elif` chain. -/
def apply_routing_logic (result : ClassificationResult)
    (urgency_decision : UrgencyDecision) (urgency_confidence : ℚ) :
    ClassificationResult :=
  if urgency_decision = .urgent ∧ 75/100 < urgency_confidence then
    if result.routing ≠ "immediate" then
      { result with
        routing := "immediate"
        reasoning := result.reasoning ++ " [Roteamento ajustado: alta urgência detectada]" }
    else result
  else if urgency_confidence < 1/2 then
    if result.routing = "immediate" then
      { result with
        routing := "digest"
        reasoning := result.reasoning ++ " [Roteamento ajustado: baixa confiança]" }
    else result
  else if urgency_decision = .not_urgent ∧ 7/10 < urgency_confidence then
    if result.routing = "immediate" then
      { result with
        routing := "digest"
        reasoning := result.reasoning ++ " [Roteamento ajustado: mensagem não urgente]" }
    else result
  else result

/-- `ClassificationAgent._create_fallback_result`: the conservative
result returned when any exception escapes the classification body —
routing is `immediate` only for an URGENT urgency decision, `digest`
otherwise. -/
def create_fallback_result (urgency_decision : UrgencyDecision) (error_msg : String) :
    ClassificationResult :=
  { category := "❓ Outros"
    summary := "Erro no processamento - mensagem preservada para digest"
    routing := if urgency_decision = .urgent then "immediate" else "digest"
    reasoning := "Fallback devido a erro: " ++ error_msg
    confidence := 1/2 }

/-! ## Orchestrator (`processing/orchestrator.py`) -/

/-- One entry of the audit trail (`state["audit_trail"]` dicts), with the
decision-relevant keys; absent keys are `none`.  Timestamps are
wall-clock side information and are dropped. -/
structure AuditEntry where
  step : String
  decision : Option String := none
  confidence : Option ℚ := none
  rule_name : Option String := none
  skipped : Bool := false
  reason : Option String := none
  llm_called : Bool := false
  category : Option String := none
  summary : Option String := none
  routing : Option String := none
  final_decision : Option String := none
deriving DecidableEq

/-- `ProcessingState` (`orchestrator.py`). -/
structure ProcessingState where
  message : NormalizedMessage
  rule_decision : Option UrgencyDecision
  rule_confidence : ℚ
  rule_matched_keywords : List String
  rule_reasoning : String
  urgency_agent_decision : Option UrgencyDecision
  urgency_agent_reasoning : String
  urgency_agent_confidence : ℚ
  classification_result : Option ClassificationResult
  classification_category : String
  classification_summary : String
  classification_routing : String
  classification_reasoning : String
  final_decision : String
  audit_trail : List AuditEntry
deriving DecidableEq

/-- The initial state built by `MessageProcessingOrchestrator.process`. -/
def initial_state (msg : NormalizedMessage) : ProcessingState :=
  { message := msg
    rule_decision := none
    rule_confidence := 0
    rule_matched_keywords := []
    rule_reasoning := ""
    urgency_agent_decision := none
    urgency_agent_reasoning := ""
    urgency_agent_confidence := 0
    classification_result := none
    classification_category := ""
    classification_summary := ""
    classification_routing := "digest"
    classification_reasoning := ""
    final_decision := "digest"
    audit_trail := [] }

/-- `MessageProcessingOrchestrator._node_rule_engine`. -/
def node_rule_engine (m : KeywordMatcher) (state : ProcessingState) : ProcessingState :=
  let rule_result := evaluate m state.message
  { state with
    rule_decision := some rule_result.decision
    rule_confidence := rule_result.confidence
    rule_matched_keywords := rule_result.matched_keywords
    rule_reasoning := rule_result.reasoning
    audit_trail := state.audit_trail ++
      [{ step := "rule_engine"
         decision := some rule_result.decision.value
         confidence := some rule_result.confidence
         rule_name := some rule_result.rule_name }] }

/-- The keyword list of
`MessageProcessingOrchestrator._urgency_agent_sync`. -/
def sync_urgent_keywords : List String :=
  ["urgente", "urgent", "imediato", "immediate",
   "emergência", "emergency", "crítico", "critical",
   "ação requerida", "action required", "agora", "now",
   "confirmação", "confirmation", "validar", "verify",
   "código", "code", "token", "acesso", "access"]

/-- `MessageProcessingOrchestrator._urgency_agent_sync`: keyword-count
heuristic over the lower-cased text. -/
def urgency_agent_sync (msg : NormalizedMessage) : UrgencyDecision × ℚ × String :=
  let text := pyOrStr msg.content.text msg.content.caption
  let text_lower := pyLower text
  let urgent_count := (sync_urgent_keywords.filter
    (fun kw => strContainsSub text_lower kw)).length
  if 3 ≤ urgent_count then (.urgent, 85/100, "Multiple urgent keywords detected by agent")
  else if 1 ≤ urgent_count then (.urgent, 7/10, "Single urgent keyword detected by agent")
  else (.not_urgent, 65/100, "No urgent keywords detected by agent")

/-- `MessageProcessingOrchestrator._node_urgency_agent`.  `exc` models an
exception raised inside the node's `try:` block (`none` = no exception):
on the skip path and on the normal path exactly one audit entry is
appended; on the exception path the conservative fallback fields are set
and **no** audit entry is appended (faithful to the source). -/
def node_urgency_agent (exc : Option String) (state : ProcessingState) : ProcessingState :=
  if state.rule_decision ≠ some .undecided then
    { state with
      urgency_agent_decision := state.rule_decision
      urgency_agent_confidence := state.rule_confidence
      urgency_agent_reasoning := "Skipped - rule engine was decisive"
      audit_trail := state.audit_trail ++
        [{ step := "urgency_agent"
           skipped := true
           reason := some "rule_engine_decisive" }] }
  else
    match exc with
    | some e =>
      { state with
        urgency_agent_decision := some .not_urgent
        urgency_agent_confidence := 1/2
        urgency_agent_reasoning := "Agent error - conservative fallback: " ++ e }
    | none =>
      let r := urgency_agent_sync state.message
      { state with
        urgency_agent_decision := some r.1
        urgency_agent_confidence := r.2.1
        urgency_agent_reasoning := r.2.2
        audit_trail := state.audit_trail ++
          [{ step := "urgency_agent"
             decision := some r.1.value
             confidence := some r.2.1
             reason := some (pySliceTo r.2.2 100)
             llm_called := true }] }

/-- `MessageProcessingOrchestrator._classification_agent_sync`: keyword
category chain, sender-prefixed summary with ellipsis truncation, and
urgency-driven routing. -/
def classification_agent_sync (msg : NormalizedMessage)
    (urgency_decision : UrgencyDecision) (urgency_confidence : ℚ) :
    ClassificationResult :=
  let text := pyOrStr msg.content.text msg.content.caption
  let text_lower := pyLower text
  let anyKw : List String → Bool := fun kws =>
    kws.any (fun kw => strContainsSub text_lower kw)
  let category :=
    if anyKw ["trabalho", "reunião", "meeting", "projeto", "prazo", "deadline", "contrato"] then
      "💼 Trabalho e Negócios"
    else if anyKw ["família", "mãe", "pai", "filho", "amigo", "querido"] then
      "👨‍👩‍👧 Família e Amigos"
    else if anyKw ["entrega", "pedido", "compra", "rastreio", "correios", "sedex"] then
      "📦 Entregas e Compras"
    else if anyKw ["pagamento", "boleto", "fatura", "pix", "transferência", "banco"] then
      "💰 Financeiro"
    else if anyKw ["médico", "consulta", "exame", "saúde", "hospital", "remédio"] then
      "🏥 Saúde"
    else if anyKw ["evento", "festa", "convite", "aniversário", "celebração"] then
      "🎉 Eventos e Convites"
    else if anyKw ["bot", "automático", "notificação", "alerta", "sistema"] then
      "🤖 Automação e Bots"
    else "📰 Informação Geral"
  let sender_name := (pyOrStr msg.sender_name (some "Contato"))
  let sender_part := sender_name ++ ": "
  let max_text_len : ℤ := 100 - (sender_part.length : ℤ)
  let summary_text := pySliceTo text max_text_len
  let summary_text :=
    if max_text_len < (text.length : ℤ) then summary_text ++ "..." else summary_text
  let summary := sender_part ++ summary_text
  let rr : String × String :=
    if urgency_decision = .urgent ∧ 75/100 < urgency_confidence then
      ("immediate", "Alta urgência detectada")
    else if urgency_decision = .not_urgent then
      ("digest", "Mensagem para digest diário")
    else ("digest", "Classificação padrão para digest")
  { category := category
    summary := summary
    routing := rr.1
    reasoning := rr.2
    confidence := 7/10 }

/-- `MessageProcessingOrchestrator._node_classification_agent`.  `exc`
models an exception raised inside the node's `try:` block: on the normal
path exactly one audit entry is appended; on the exception path the
conservative fallback fields are set and **no** audit entry is appended
(faithful to the source). -/
def node_classification_agent (exc : Option String) (state : ProcessingState) :
    ProcessingState :=
  let urgency_decision :=
    match state.urgency_agent_decision with
    | some d => some d
    | none => state.rule_decision
  let urgency_confidence :=
    if state.urgency_agent_confidence ≠ 0 then state.urgency_agent_confidence
    else state.rule_confidence
  match exc with
  | some e =>
    let fallback_result : ClassificationResult :=
      { category := "❓ Outros"
        summary := "Erro no processamento - mensagem preservada"
        routing := if urgency_decision ≠ some .urgent then "digest" else "immediate"
        reasoning := "Fallback devido a erro: " ++ e
        confidence := 1/2 }
    { state with
      classification_result := some fallback_result
      classification_category := fallback_result.category
      classification_summary := fallback_result.summary
      classification_routing := fallback_result.routing
      classification_reasoning := fallback_result.reasoning }
  | none =>
    let result := classification_agent_sync state.message
      (urgency_decision.getD .not_urgent) urgency_confidence
    { state with
      classification_result := some result
      classification_category := result.category
      classification_summary := result.summary
      classification_routing := result.routing
      classification_reasoning := result.reasoning
      audit_trail := state.audit_trail ++
        [{ step := "classification_agent"
           category := some result.category
           summary := some result.summary
           routing := some result.routing
           confidence := some result.confidence
           reason := some (pySliceTo result.reasoning 150) }] }

/-- `MessageProcessingOrchestrator._node_route_decision`. -/
def node_route_decision (state : ProcessingState) : ProcessingState :=
  let routing := state.classification_routing
  { state with
    final_decision := routing
    audit_trail := state.audit_trail ++
      [{ step := "route_decision"
         final_decision := some routing
         category := some state.classification_category
         summary := some state.classification_summary }] }

/-- `MessageProcessingOrchestrator._node_audit_log`. -/
def node_audit_log (state : ProcessingState) : ProcessingState :=
  { state with
    audit_trail := state.audit_trail ++
      [{ step := "audit_log"
         final_decision := some state.final_decision }] }

/-- The compiled LangGraph pipeline of
`MessageProcessingOrchestrator.process`: the five nodes in their fixed
edge order `rule_engine → urgency_agent → classification_agent →
route_decision → audit_log`. -/
def run_pipeline (m : KeywordMatcher) (urgExc clsExc : Option String)
    (msg : NormalizedMessage) : ProcessingState :=
  node_audit_log
    (node_route_decision
      (node_classification_agent clsExc
        (node_urgency_agent urgExc
          (node_rule_engine m (initial_state msg)))))

/-! ## Shared lemmas and concrete test fixtures -/

/-- A trivial compiled-pattern semantics (no regex matches) for concrete
witnesses; every theorem below holds for every pattern semantics. -/
def no_patterns : String → List String := fun _ => []

/-- The source `KeywordMatcher` with the trivial pattern semantics. -/
def matcher0 : KeywordMatcher := mkKeywordMatcher no_patterns no_patterns no_patterns

/-- A private (non-group) message fixture. -/
def msg_private (text : String) : NormalizedMessage :=
  { message_id := "msg-1"
    tenant_id := "tenant-1"
    user_id := "user-1"
    sender_phone := "5511999990000"
    sender_name := some "Ana"
    content := { text := some text, caption := none }
    metadata := { is_group := false } }

/-- A group message fixture. -/
def msg_group (text : String) : NormalizedMessage :=
  { msg_private text with metadata := { is_group := true } }

/-- `_apply_conservative_logic` is the identity on a non-urgent input:
every override rule requires `result.urgent`. -/
theorem apply_conservative_logic_not_urgent (r : UrgencyResult)
    (hist : Option HistoricalInterruptionData) (g : Bool)
    (h : r.urgent = false) : apply_conservative_logic r hist g = r := by
  unfold apply_conservative_logic conservative_rule2 conservative_rule3 conservative_rule4
  simp [h]

/-! ## C5 — group messages short-circuit to NOT_URGENT 0.95 -/

/-- **C5.** For every message with `is_group == true`, and for every
keyword/pattern table, `UrgencyRuleEngine.evaluate` returns NOT_URGENT
with rule name `"group_message"` and confidence exactly 0.95 (hence
≥ 0.95), regardless of the message's text or caption content. -/
theorem engine_group_messages_never_urgent (m : KeywordMatcher)
    (msg : NormalizedMessage) (h : msg.metadata.is_group = true) :
    evaluate m msg =
      { decision := .not_urgent
        rule_name := "group_message"
        confidence := 95/100
        matched_keywords := []
        reasoning := "Group messages are not urgent by default" } ∧
    (95/100 : ℚ) ≤ (evaluate m msg).confidence := by
  unfold evaluate
  simp [h]

/-- Witness for C5: a group message whose text is full of urgent/security
vocabulary is still NOT_URGENT 0.95. -/
theorem engine_group_messages_never_urgent_witness :
    evaluate matcher0 (msg_group "URGENTE: seu código expira agora, alerta crítico") =
      { decision := .not_urgent
        rule_name := "group_message"
        confidence := 95/100
        matched_keywords := []
        reasoning := "Group messages are not urgent by default" } :=
  (engine_group_messages_never_urgent matcher0
    (msg_group "URGENTE: seu código expira agora, alerta crítico") rfl).1

/-! ## C6 — security evidence wins and fixes the confidence formula -/

/-- The combined security evidence of a text: matched security keywords
followed by security pattern matches (the `all_matches` list of
`_check_security`). -/
def security_evidence (m : KeywordMatcher) (text : String) : List String :=
  match_keywords text m.security_keywords ++ match_patterns text m.security_patterns

/-- **C6.** For every non-group message whose text matches at least one
security keyword or security pattern, `evaluate` returns URGENT with rule
name `"security_content"` and confidence `min 0.99 (0.80 + 0.05·count)`,
for every keyword/pattern table — in particular also when financial
keywords or patterns match the same text, since the conclusion does not
depend on the financial evidence (security is checked first). -/
theorem engine_security_wins_with_formula (m : KeywordMatcher)
    (msg : NormalizedMessage) (hg : msg.metadata.is_group = false)
    (hs : security_evidence m (extract_text msg) ≠ []) :
    evaluate m msg =
      { decision := .urgent
        rule_name := "security_content"
        confidence := min (99/100 : ℚ)
          (80/100 + (security_evidence m (extract_text msg)).length * (5/100))
        matched_keywords := (security_evidence m (extract_text msg)).take 5
        reasoning := "Security keywords/patterns detected: " ++
          toString (security_evidence m (extract_text msg)).length ++ " matches" } := by
  have htext : extract_text msg ≠ "" := by
    intro he
    apply hs
    unfold security_evidence match_keywords match_patterns
    simp [he]
  unfold evaluate check_security
  unfold security_evidence at hs ⊢
  simp [hg, htext, hs]

/-- Witness for C6: `"fraude urgente detectada"` matches both the
financial table (`fraude`) and the security table (`urgent`, `urgente`);
the security rule wins and reports its two matches. -/
theorem engine_security_wins_with_formula_witness :
    check_financial matcher0 (extract_text (msg_private "fraude urgente detectada")) ≠ none ∧
    evaluate matcher0 (msg_private "fraude urgente detectada") =
      { decision := .urgent
        rule_name := "security_content"
        confidence := min (99/100 : ℚ)
          (80/100 + (security_evidence matcher0
            (extract_text (msg_private "fraude urgente detectada"))).length * (5/100))
        matched_keywords := (security_evidence matcher0
          (extract_text (msg_private "fraude urgente detectada"))).take 5
        reasoning := "Security keywords/patterns detected: " ++
          toString (security_evidence matcher0
            (extract_text (msg_private "fraude urgente detectada"))).length ++
          " matches" } :=
  ⟨by decide,
   engine_security_wins_with_formula matcher0 (msg_private "fraude urgente detectada")
     rfl (by decide)⟩

/-! ## C7 — confident NOT_URGENT never routes immediate -/

/-- **C7.** For every classifier-proposed routing and every urgency input
with decision NOT_URGENT and confidence > 0.7, `_apply_routing_logic`
never leaves routing at `"immediate"`; and on the classifier-failure
fallback path, `_create_fallback_result` routes immediate exactly for an
URGENT urgency decision and digest otherwise (so never for NOT_URGENT). -/
theorem router_not_urgent_never_immediate (result : ClassificationResult)
    (conf : ℚ) (e : String) (h : 7/10 < conf) :
    (apply_routing_logic result .not_urgent conf).routing ≠ "immediate" ∧
    (create_fallback_result .not_urgent e).routing = "digest" ∧
    (∀ d : UrgencyDecision,
      (create_fallback_result d e).routing =
        if d = .urgent then "immediate" else "digest") := by
  refine ⟨?_, by simp [create_fallback_result], fun d => by simp [create_fallback_result]⟩
  unfold apply_routing_logic
  have h2 : ¬ (conf < 1/2) := by
    intro hlt
    linarith
  by_cases hr : result.routing = "immediate" <;> simp [h, h2, hr]
  split <;> simp

/-- Witness for C7: a classifier proposal of `immediate` with a
NOT_URGENT/0.8 urgency input is demoted, and the fallback routes
digest. -/
theorem router_not_urgent_never_immediate_witness :
    (apply_routing_logic
        { category := "❓ Outros", summary := "s", routing := "immediate",
          reasoning := "", confidence := 7/10 }
        .not_urgent (8/10)).routing ≠ "immediate" ∧
    (create_fallback_result .not_urgent "timeout").routing = "digest" ∧
    (∀ d : UrgencyDecision,
      (create_fallback_result d "timeout").routing =
        if d = .urgent then "immediate" else "digest") :=
  router_not_urgent_never_immediate
    { category := "❓ Outros", summary := "s", routing := "immediate",
      reasoning := "", confidence := 7/10 }
    (8/10) "timeout" (by norm_num)

/-! ## C3 — conservative-override thresholds, with boundary values -/

/-- **C3.** `_apply_conservative_logic` returns `urgent = true` only when
the input was already urgent (overrides never upgrade) and the reported
confidence is at or above the effective threshold of every applicable
historical-data bucket: 0.75 base, 0.65 for senders with ≥ 5 messages,
0.85 for first contact (0 messages), 0.85 for ≥ 10 messages with urgency
rate < 10 %, 0.90 for group messages.  The closed conjuncts check each
rule at its boundary (e.g. 0.749 downgrades, 0.750 does not, for the base
rule). -/
theorem agent_conservative_override_thresholds :
    (∀ (r : UrgencyResult) (hist : Option HistoricalInterruptionData) (g : Bool),
      (apply_conservative_logic r hist g).urgent = true →
      r.urgent = true ∧
      ((match hist with | some h => h.total_messages < 5 | none => True) →
        CONFIDENCE_THRESHOLD_URGENT ≤ r.confidence) ∧
      (∀ h, hist = some h → 5 ≤ h.total_messages →
        CONFIDENCE_THRESHOLD_KNOWN_SENDER ≤ r.confidence) ∧
      (∀ h, hist = some h → h.total_messages = 0 → 85/100 ≤ r.confidence) ∧
      (∀ h, hist = some h → 10 ≤ h.total_messages → urgency_rate h < 1/10 →
        85/100 ≤ r.confidence) ∧
      (g = true → 90/100 ≤ r.confidence)) ∧
    (apply_conservative_logic ⟨true, "r", 749/1000⟩ none false).urgent = false ∧
    (apply_conservative_logic ⟨true, "r", 750/1000⟩ none false).urgent = true ∧
    (apply_conservative_logic ⟨true, "r", 649/1000⟩ (some ⟨"p", 5, 1, 4⟩) false).urgent
      = false ∧
    (apply_conservative_logic ⟨true, "r", 650/1000⟩ (some ⟨"p", 5, 1, 4⟩) false).urgent
      = true ∧
    (apply_conservative_logic ⟨true, "r", 849/1000⟩ (some ⟨"p", 0, 0, 0⟩) false).urgent
      = false ∧
    (apply_conservative_logic ⟨true, "r", 850/1000⟩ (some ⟨"p", 0, 0, 0⟩) false).urgent
      = true ∧
    (apply_conservative_logic ⟨true, "r", 849/1000⟩ (some ⟨"p", 10, 0, 10⟩) false).urgent
      = false ∧
    (apply_conservative_logic ⟨true, "r", 850/1000⟩ (some ⟨"p", 10, 0, 10⟩) false).urgent
      = true ∧
    (apply_conservative_logic ⟨true, "r", 899/1000⟩ none true).urgent = false ∧
    (apply_conservative_logic ⟨true, "r", 900/1000⟩ none true).urgent = true := by
  constructor
  · intro r hist g hu
    cases hist with
    | none =>
      simp only [apply_conservative_logic, conservative_rule2, conservative_rule3,
        conservative_rule4, rule1_downgrade, Bool.and_false, Bool.false_and,
        Bool.and_eq_true, decide_eq_true_eq, if_false] at hu
      split_ifs at hu <;>
        simp_all [CONFIDENCE_THRESHOLD_URGENT, CONFIDENCE_THRESHOLD_KNOWN_SENDER]
    | some h =>
      simp only [apply_conservative_logic, conservative_rule2, conservative_rule3,
        conservative_rule4, rule1_downgrade, Bool.and_eq_true, decide_eq_true_eq] at hu
      split_ifs at hu <;>
        simp_all [CONFIDENCE_THRESHOLD_URGENT, CONFIDENCE_THRESHOLD_KNOWN_SENDER] <;>
        intros <;> linarith
  · norm_num [apply_conservative_logic, conservative_rule2, conservative_rule3,
      conservative_rule4, rule1_downgrade, CONFIDENCE_THRESHOLD_URGENT,
      CONFIDENCE_THRESHOLD_KNOWN_SENDER, urgency_rate]

/-- Witness for C3: an urgent classification at confidence 0.8 with no
historical data survives, and the base threshold is indeed met there. -/
theorem agent_conservative_override_thresholds_witness :
    CONFIDENCE_THRESHOLD_URGENT ≤ (4/5 : ℚ) :=
  (agent_conservative_override_thresholds.1 ⟨true, "reason", 4/5⟩ none false
    (by norm_num [apply_conservative_logic, conservative_rule2, conservative_rule3,
      conservative_rule4, CONFIDENCE_THRESHOLD_URGENT])).2.1 trivial

/-! ## C4 — classifier failures are conservative, never propagate -/

/-- **C4.** On every failure path of `UrgencyAgent.run` — missing
configuration (`OPENAI_API_KEY` unset), unparsable classifier response,
or an exception caught by the run-level handler — the returned result has
`urgent = false` with confidence ≤ 0.5, the reason names the failure,
and the failure is converted to a value instead of being propagated
(each handler below is a total function producing an `UrgencyResult`). -/
theorem agent_failure_paths_conservative :
    (∀ (msg : NormalizedMessage) (histArg : Option HistoricalInterruptionData)
        (histFetch : HistoricalInterruptionData) (llm : UrgencyParseOutcome),
      ¬ (pyOrStr msg.content.text msg.content.caption = "" ∨
          (pyStrip (pyOrStr msg.content.text msg.content.caption)).length < 5) →
      msg.metadata.is_group = false →
      (urgency_agent_run msg histArg histFetch false llm).1 =
        { urgent := false
          reason := "API não configurada - por segurança, não interromper"
          confidence := 2/5 } ∧
      (urgency_agent_run msg histArg histFetch false llm).1.confidence ≤ 1/2) ∧
    (∀ (msg : NormalizedMessage) (histArg : Option HistoricalInterruptionData)
        (histFetch : HistoricalInterruptionData) (e : String),
      ¬ (pyOrStr msg.content.text msg.content.caption = "" ∨
          (pyStrip (pyOrStr msg.content.text msg.content.caption)).length < 5) →
      msg.metadata.is_group = false →
      (urgency_agent_run msg histArg histFetch true (.err e)).1 =
        { urgent := false
          reason := "Erro ao processar resposta da análise: " ++ e
          confidence := 3/10 } ∧
      (urgency_agent_run msg histArg histFetch true (.err e)).1.confidence ≤ 1/2) ∧
    (∀ e : String,
      urgency_run_exception_fallback e =
        { urgent := false
          reason := "Erro na análise: " ++ e ++ ". Por segurança, não interromper."
          confidence := 1/2 } ∧
      (urgency_run_exception_fallback e).confidence ≤ 1/2) := by
  have hparse_cfg : parse_urgency_response missing_config_response =
      { urgent := false
        reason := "API não configurada - por segurança, não interromper"
        confidence := 2/5 } := by
    simp only [parse_urgency_response, missing_config_response]
    have h1 : min (1 : ℚ) (4/10) = 4/10 := min_eq_right (by norm_num)
    have h2 : max (0 : ℚ) (4/10) = 4/10 := max_eq_right (by norm_num)
    rw [h1, h2]
    norm_num
  refine ⟨?_, ?_, ?_⟩
  · intro msg histArg histFetch llm hshort hg
    have hrun : (urgency_agent_run msg histArg histFetch false llm).1 =
        { urgent := false
          reason := "API não configurada - por segurança, não interromper"
          confidence := 2/5 } := by
      unfold urgency_agent_run
      simp only [hshort, hg, if_false, Bool.false_eq_true, ite_false]
      rw [hparse_cfg]
      exact apply_conservative_logic_not_urgent _ _ _ rfl
    exact ⟨hrun, by rw [hrun]; norm_num⟩
  · intro msg histArg histFetch e hshort hg
    have hrun : (urgency_agent_run msg histArg histFetch true (.err e)).1 =
        { urgent := false
          reason := "Erro ao processar resposta da análise: " ++ e
          confidence := 3/10 } := by
      unfold urgency_agent_run
      simp only [hshort, hg, Bool.false_eq_true, if_false, ite_false, ite_true,
        parse_urgency_response]
      exact apply_conservative_logic_not_urgent _ _ _ rfl
    exact ⟨hrun, by rw [hrun]; norm_num⟩
  · intro e
    exact ⟨rfl, by norm_num [urgency_run_exception_fallback]⟩

/-- Witness for C4: a concrete private message with analysable text; the
missing-configuration path and the malformed-response path both yield
non-urgent results with confidence ≤ 0.5. -/
theorem agent_failure_paths_conservative_witness :
    (urgency_agent_run (msg_private "Oi, tudo bem?") none ⟨"p", 0, 0, 0⟩ false
        (.ok true 1 "high")).1 =
      { urgent := false
        reason := "API não configurada - por segurança, não interromper"
        confidence := 2/5 } ∧
    (urgency_agent_run (msg_private "Oi, tudo bem?") none ⟨"p", 0, 0, 0⟩ true
        (.err "Expecting value")).1 =
      { urgent := false
        reason := "Erro ao processar resposta da análise: Expecting value"
        confidence := 3/10 } :=
  ⟨(agent_failure_paths_conservative.1 (msg_private "Oi, tudo bem?") none ⟨"p", 0, 0, 0⟩
      (.ok true 1 "high") (by decide) rfl).1,
   (agent_failure_paths_conservative.2.1 (msg_private "Oi, tudo bem?") none ⟨"p", 0, 0, 0⟩
      "Expecting value" (by decide) rfl).1⟩

/-! ## C10 — early returns of `UrgencyAgent.run` -/

/-- **C10 (amended).** `UrgencyAgent.run` short-circuits before fetching
historical data and before any classifier call: messages whose combined
text is empty or shorter than 5 characters after stripping return
non-urgent with confidence 0.85 (this check runs first, so it also
covers group messages with short text), and group messages with longer
text return non-urgent with confidence 0.90.  In both cases the returned
flags record that `_call_llm` and `_fetch_historical_data` were never
invoked. -/
theorem agent_early_returns_skip_llm :
    (∀ (msg : NormalizedMessage) (histArg : Option HistoricalInterruptionData)
        (histFetch : HistoricalInterruptionData) (k : Bool) (llm : UrgencyParseOutcome),
      (pyOrStr msg.content.text msg.content.caption = "" ∨
        (pyStrip (pyOrStr msg.content.text msg.content.caption)).length < 5) →
      urgency_agent_run msg histArg histFetch k llm =
        ({ urgent := false
           reason := "Mensagem vazia ou muito curta para ser urgente"
           confidence := 85/100 }, false, false)) ∧
    (∀ (msg : NormalizedMessage) (histArg : Option HistoricalInterruptionData)
        (histFetch : HistoricalInterruptionData) (k : Bool) (llm : UrgencyParseOutcome),
      ¬ (pyOrStr msg.content.text msg.content.caption = "" ∨
          (pyStrip (pyOrStr msg.content.text msg.content.caption)).length < 5) →
      msg.metadata.is_group = true →
      urgency_agent_run msg histArg histFetch k llm =
        ({ urgent := false
           reason := "Mensagens de grupo não são consideradas urgentes por padrão"
           confidence := 90/100 }, false, false)) := by
  constructor
  · intro msg histArg histFetch k llm hshort
    unfold urgency_agent_run
    rw [if_pos hshort]
  · intro msg histArg histFetch k llm hshort hg
    unfold urgency_agent_run
    rw [if_neg hshort]
    simp [hg]

/-- Counterexample for C10 as stated: a group message with short text
gets the short-text confidence 0.85, not the group confidence 0.90 —
the short-text check runs before the group check. -/
theorem agent_group_short_text_gets_085 :
    (msg_group "oi").metadata.is_group = true ∧
    (urgency_agent_run (msg_group "oi") none ⟨"p", 0, 0, 0⟩ true
        (.ok false (1/2) "r")).1.confidence = 85/100 ∧
    (85/100 : ℚ) ≠ 90/100 := by
  refine ⟨rfl, rfl, by norm_num⟩

/-- Witness for C10: both early returns at concrete messages. -/
theorem agent_early_returns_skip_llm_witness :
    urgency_agent_run (msg_private "oi") none ⟨"p", 0, 0, 0⟩ true (.ok true 1 "r") =
      ({ urgent := false
         reason := "Mensagem vazia ou muito curta para ser urgente"
         confidence := 85/100 }, false, false) ∧
    urgency_agent_run (msg_group "Vamos marcar aquele churrasco no fim de semana?")
        none ⟨"p", 0, 0, 0⟩ true (.ok true 1 "r") =
      ({ urgent := false
         reason := "Mensagens de grupo não são consideradas urgentes por padrão"
         confidence := 90/100 }, false, false) :=
  ⟨agent_early_returns_skip_llm.1 (msg_private "oi") none ⟨"p", 0, 0, 0⟩ true
      (.ok true 1 "r") (by decide),
   agent_early_returns_skip_llm.2 (msg_group "Vamos marcar aquele churrasco no fim de semana?")
      none ⟨"p", 0, 0, 0⟩ true (.ok true 1 "r") (by decide) rfl⟩

/-! ## C1 — credential mismatch versus the resolver cache -/

/-- A concrete tenant-store record for instance `inst-1`. -/
def wapi_inst1 : WAPIInstance :=
  { tenant_id := "tenant-1"
    user_id := "user-1"
    wapi_instance_id := "inst-1"
    instance_name := "primary"
    phone_number := "5511888887777"
    status := "active"
    api_key_hash := "stored-hash" }

/-- A concrete tenant store holding exactly `inst-1`. -/
def repo1 : String → Option WAPIInstance :=
  fun i => if i = "inst-1" then some wapi_inst1 else none

/-- A concrete model of `sha256(·).hexdigest()`; only the inequality of
its outputs with the stored hash matters. -/
def hash_model : String → String := fun k => "sha256:" ++ k

/-- The verified context for `inst-1` (as produced by a previous
successful resolution). -/
def ctx1 : TenantContext :=
  { tenant_id := "tenant-1"
    user_id := "user-1"
    instance_id := "inst-1"
    phone_number := "5511888887777"
    status := "active" }

/-- **C1 (code bug).** With an empty cache, a supplied credential whose
hash differs from the stored hash is rejected — but when a previously
verified active context for the same `instance_id` sits in the cache,
`resolve_from_instance` returns it *before* the credential is ever
hashed or compared, so the same mismatching credential resolves
successfully.  This contradicts the function's own contract
("Validates API key if provided") and the spec's step 2. -/
theorem tenant_cache_hit_bypasses_credential_check :
    hash_model "wrong-key" ≠ wapi_inst1.api_key_hash ∧
    resolve_from_instance hash_model repo1 [] "inst-1" (some "wrong-key") = (none, []) ∧
    resolve_from_instance hash_model repo1 [("inst-1", ctx1)] "inst-1" (some "wrong-key") =
      (some ctx1, [("inst-1", ctx1)]) := by
  refine ⟨by decide, by decide, by decide⟩

/-! ## C2 — payload `user_id` rejection is truthiness-based -/

/-- Counterexample for C2 as stated: a payload containing the field
`user_id` with the (falsy) value `""` passes `validate_and_resolve`
untouched — the source guards with `if payload_user:` (Python
truthiness), not with a key-presence check, so "a `user_id` field of any
value" is not rejected. -/
theorem tenant_empty_user_id_not_rejected :
    (validate_and_resolve hash_model repo1 (fun _ => none) [] "inst-1" none none
        (some { tenant_id := none, user_id := some "", has_other_keys := false })).1 =
      (some ctx1, []) := by
  decide

/-- **C2 (amended).** For every payload whose `user_id` field holds a
truthy (non-empty) value, `validate_and_resolve` returns no
`TenantContext` and the error map `payload_forbidden_fields`, whenever
resolution succeeded with an active context and the phone-ownership step
passes — even when the payload's `tenant_id` equals the resolved one.
A falsy `user_id` value (e.g. `""`) is not detected. -/
theorem tenant_truthy_user_id_always_rejected
    (hashFn : String → String) (repo phoneOwner : String → Option WAPIInstance)
    (cache : TenantCache) (instance_id : String) (api_key sender_phone : Option String)
    (p : RawPayload) (u : String) (ctx : TenantContext) (cache' : TenantCache)
    (hres : resolve_from_instance hashFn repo cache instance_id api_key = (some ctx, cache'))
    (hactive : ctx.is_active = true)
    (hphone : truthyOpt sender_phone = true →
      validate_phone_ownership phoneOwner (sender_phone.getD "") ctx = true)
    (huser : p.user_id = some u) (hu : u ≠ "") :
    validate_and_resolve hashFn repo phoneOwner cache instance_id api_key sender_phone
        (some p) =
      ((none, [("payload_forbidden_fields",
                "Payload attempted to override tenant/user context")]), cache') := by
  have hdetect : detect_cross_tenant_attempt p ctx.tenant_id = true := by
    unfold detect_cross_tenant_attempt
    rw [huser]
    by_cases hA : truthyOpt p.tenant_id ∧ p.tenant_id.getD "" ≠ ctx.tenant_id
    · rw [if_pos hA]
    · rw [if_neg hA]
      simp [truthyOpt, hu]
  have htruthy : p.isTruthy = true := by
    unfold RawPayload.isTruthy
    rw [huser]
    simp
  unfold validate_and_resolve
  rw [hres]
  dsimp only
  rw [if_neg (show ¬ ¬ ctx.is_active = true from by simp [hactive])]
  rw [if_neg (show ¬ (truthyOpt sender_phone = true ∧
      ¬ validate_phone_ownership phoneOwner (sender_phone.getD "") ctx = true) from ?_)]
  · rw [if_pos (show (p.isTruthy && detect_cross_tenant_attempt p ctx.tenant_id) = true
      from by simp [htruthy, hdetect])]
  · rintro ⟨ht, hv⟩
    exact hv (hphone ht)

/-- Witness for C2: a concrete payload whose `tenant_id` matches the
resolved tenant and whose `user_id` is `"attacker"` is rejected with the
forbidden-fields error. -/
theorem tenant_truthy_user_id_always_rejected_witness :
    validate_and_resolve hash_model repo1 (fun _ => none) [] "inst-1" none none
        (some { tenant_id := some "tenant-1", user_id := some "attacker",
                has_other_keys := false }) =
      ((none, [("payload_forbidden_fields",
                "Payload attempted to override tenant/user context")]),
       [("inst-1", ctx1)]) :=
  tenant_truthy_user_id_always_rejected hash_model repo1 (fun _ => none) [] "inst-1"
    none none
    { tenant_id := some "tenant-1", user_id := some "attacker", has_other_keys := false }
    "attacker" ctx1 [("inst-1", ctx1)] (by decide) rfl (fun h => by simp [truthyOpt] at h)
    rfl (by decide)

/-! ## C8 — audit-trail entries per stage -/

/-- The stage labels of a state's audit trail. -/
def audit_steps (st : ProcessingState) : List String :=
  st.audit_trail.map (fun e => e.step)

/-- The rule-engine node appends exactly one `rule_engine` entry. -/
theorem rule_engine_steps (m : KeywordMatcher) (st : ProcessingState) :
    audit_steps (node_rule_engine m st) = audit_steps st ++ ["rule_engine"] := by
  simp [audit_steps, node_rule_engine]

/-- Without an internal exception the urgency node appends exactly one
`urgency_agent` entry, on the skip path as well as on the agent path. -/
theorem urgency_agent_steps (st : ProcessingState) :
    audit_steps (node_urgency_agent none st) = audit_steps st ++ ["urgency_agent"] := by
  by_cases hc : st.rule_decision ≠ some .undecided <;>
    simp [audit_steps, node_urgency_agent, hc]

/-- On the skip path the appended entry is marked skipped, whatever the
exception parameter is (the skip check precedes the `try:` block). -/
theorem urgency_agent_skip_entry (exc : Option String) (st : ProcessingState)
    (h : st.rule_decision ≠ some .undecided) :
    (node_urgency_agent exc st).audit_trail = st.audit_trail ++
      [{ step := "urgency_agent", skipped := true,
         reason := some "rule_engine_decisive" }] := by
  simp [node_urgency_agent, h]

/-- On its internal error path (rule engine undecided, agent raised) the
urgency node appends no audit entry. -/
theorem urgency_agent_error_no_entry (e : String) (st : ProcessingState)
    (h : st.rule_decision = some .undecided) :
    (node_urgency_agent (some e) st).audit_trail = st.audit_trail := by
  simp [node_urgency_agent, h]

/-- Without an internal exception the classification node appends exactly
one `classification_agent` entry. -/
theorem classification_agent_steps (st : ProcessingState) :
    audit_steps (node_classification_agent none st) =
      audit_steps st ++ ["classification_agent"] := by
  simp [audit_steps, node_classification_agent]

/-- On its internal error path the classification node appends no audit
entry. -/
theorem classification_agent_error_no_entry (e : String) (st : ProcessingState) :
    (node_classification_agent (some e) st).audit_trail = st.audit_trail := by
  simp [node_classification_agent]

/-- The route-decision node appends exactly one `route_decision` entry. -/
theorem route_decision_steps (st : ProcessingState) :
    audit_steps (node_route_decision st) = audit_steps st ++ ["route_decision"] := by
  simp [audit_steps, node_route_decision]

/-- The audit-log node appends exactly one `audit_log` entry. -/
theorem audit_log_steps (st : ProcessingState) :
    audit_steps (node_audit_log st) = audit_steps st ++ ["audit_log"] := by
  simp [audit_steps, node_audit_log]

/-- The classification node (no internal exception) appends exactly one
entry; its content depends on the computed result. -/
theorem classification_agent_appends_one (st : ProcessingState) :
    ∃ c, (node_classification_agent none st).audit_trail = st.audit_trail ++ [c] :=
  ⟨_, rfl⟩

/-- The route-decision node appends exactly one entry. -/
theorem route_decision_appends_one (st : ProcessingState) :
    ∃ r, (node_route_decision st).audit_trail = st.audit_trail ++ [r] :=
  ⟨_, rfl⟩

/-- The audit-log node appends exactly one entry. -/
theorem audit_log_appends_one (st : ProcessingState) :
    ∃ a, (node_audit_log st).audit_trail = st.audit_trail ++ [a] :=
  ⟨_, rfl⟩

/-- **C8 (amended).** On runs where no stage hits its internal error
fallback, every stage appends exactly one audit entry, so the trail holds
one entry per stage in stage order, and the escalation stage's entry is
marked skipped whenever the rule engine was decisive.  On the
urgency-agent or classification-agent internal error-fallback paths,
however, the failing stage appends **no** entry, so such completed runs
lack that stage's entry. -/
theorem pipeline_audit_one_entry_per_stage :
    (∀ (m : KeywordMatcher) (msg : NormalizedMessage),
      audit_steps (run_pipeline m none none msg) =
        ["rule_engine", "urgency_agent", "classification_agent",
         "route_decision", "audit_log"]) ∧
    (∀ (m : KeywordMatcher) (msg : NormalizedMessage) (urgExc : Option String),
      (evaluate m msg).decision ≠ .undecided →
      (run_pipeline m urgExc none msg).audit_trail[1]? =
        some { step := "urgency_agent", skipped := true,
               reason := some "rule_engine_decisive" }) ∧
    (∀ (m : KeywordMatcher) (msg : NormalizedMessage) (e : String),
      audit_steps (run_pipeline m none (some e) msg) =
        ["rule_engine", "urgency_agent", "route_decision", "audit_log"]) ∧
    (∀ (m : KeywordMatcher) (msg : NormalizedMessage) (e : String),
      (evaluate m msg).decision = .undecided →
      audit_steps (run_pipeline m (some e) none msg) =
        ["rule_engine", "classification_agent", "route_decision", "audit_log"]) := by
  have hinit : ∀ msg, audit_steps (initial_state msg) = [] := fun _ => rfl
  have hruledec : ∀ (m : KeywordMatcher) (msg : NormalizedMessage),
      (node_rule_engine m (initial_state msg)).rule_decision =
        some (evaluate m msg).decision := fun _ _ => rfl
  refine ⟨?_, ?_, ?_, ?_⟩
  · intro m msg
    unfold run_pipeline
    rw [audit_log_steps, route_decision_steps, classification_agent_steps,
      urgency_agent_steps, rule_engine_steps, hinit]
    rfl
  · intro m msg urgExc hne
    have hd : (node_rule_engine m (initial_state msg)).rule_decision ≠ some .undecided := by
      rw [hruledec]
      intro hcontra
      exact hne (Option.some_injective _ hcontra)
    have e1 : ∃ x, (node_rule_engine m (initial_state msg)).audit_trail = [x] := ⟨_, rfl⟩
    obtain ⟨x, hx⟩ := e1
    have e2 := urgency_agent_skip_entry urgExc (node_rule_engine m (initial_state msg)) hd
    obtain ⟨c, hc⟩ := classification_agent_appends_one
      (node_urgency_agent urgExc (node_rule_engine m (initial_state msg)))
    obtain ⟨r, hr⟩ := route_decision_appends_one
      (node_classification_agent none
        (node_urgency_agent urgExc (node_rule_engine m (initial_state msg))))
    obtain ⟨a, ha⟩ := audit_log_appends_one
      (node_route_decision (node_classification_agent none
        (node_urgency_agent urgExc (node_rule_engine m (initial_state msg)))))
    have hfull : (run_pipeline m urgExc none msg).audit_trail =
        [x, { step := "urgency_agent", skipped := true,
              reason := some "rule_engine_decisive" }, c, r, a] := by
      unfold run_pipeline
      rw [ha, hr, hc, e2, hx]
      simp
    rw [hfull]
    rfl
  · intro m msg e
    unfold run_pipeline
    rw [audit_log_steps, route_decision_steps]
    have := classification_agent_error_no_entry e (node_urgency_agent none
      (node_rule_engine m (initial_state msg)))
    unfold audit_steps
    rw [this]
    have h2 := urgency_agent_steps (node_rule_engine m (initial_state msg))
    unfold audit_steps at h2
    rw [h2]
    have h3 := rule_engine_steps m (initial_state msg)
    unfold audit_steps at h3
    rw [h3]
    rfl
  · intro m msg e hund
    unfold run_pipeline
    rw [audit_log_steps, route_decision_steps, classification_agent_steps]
    have hu := urgency_agent_error_no_entry e (node_rule_engine m (initial_state msg))
      (by rw [hruledec, hund])
    unfold audit_steps
    rw [hu]
    have h3 := rule_engine_steps m (initial_state msg)
    unfold audit_steps at h3
    rw [h3]
    rfl

set_option maxRecDepth 8000 in
/-- Counterexample for C8 as stated: on a completed run whose
classification stage hits its internal error fallback, the audit trail
has only four entries and no `classification_agent` entry at all — the
stage handed state onward without appending. -/
theorem pipeline_error_path_drops_audit_entry :
    audit_steps (run_pipeline matcher0 none (some "boom") (msg_private "Oi, tudo bem?")) =
      ["rule_engine", "urgency_agent", "route_decision", "audit_log"] ∧
    (run_pipeline matcher0 none (some "boom")
      (msg_private "Oi, tudo bem?")).audit_trail.length = 4 ∧
    "classification_agent" ∉
      audit_steps (run_pipeline matcher0 none (some "boom") (msg_private "Oi, tudo bem?")) := by
  refine ⟨by decide, by decide, by decide⟩

set_option maxRecDepth 8000 in
/-- Witness for C8: on a decisive group message the second audit entry is
the skipped escalation entry. -/
theorem pipeline_audit_one_entry_per_stage_witness :
    (run_pipeline matcher0 none none (msg_group "bom dia pessoal")).audit_trail[1]? =
      some { step := "urgency_agent", skipped := true,
             reason := some "rule_engine_decisive" } :=
  pipeline_audit_one_entry_per_stage.2.1 matcher0 (msg_group "bom dia pessoal") none
    (by decide)

/-! ## C9 — summary length bounds -/

/-- Length of a non-negative Python slice. -/
theorem pySliceTo_length_le (s : String) (m : ℤ) (h : 0 ≤ m) :
    (pySliceTo s m).length ≤ m.toNat := by
  unfold pySliceTo
  rw [if_pos h]
  show (s.data.take m.toNat).length ≤ m.toNat
  rw [List.length_take]
  omega

/-- The sender prefix built by `_classification_agent_sync`. -/
def sync_sender_part (msg : NormalizedMessage) : String :=
  pyOrStr msg.sender_name (some "Contato") ++ ": "

set_option maxRecDepth 20000 in
/-- Counterexample for C9 as stated: with a 149-character sender name and
empty text, the synchronous-fallback summary is 154 characters long —
`100 - len(prefix)` is negative, the Python slice then drops characters
from the *end*, the ellipsis is appended unconditionally, and the
150-character cap of the parse path is never applied on this path. -/
theorem classification_sync_summary_overflow :
    (classification_agent_sync
        { msg_private "" with sender_name := some ⟨List.replicate 149 'a'⟩ }
        .not_urgent (7/10)).summary.length = 154 ∧
    ¬ ((154 : ℕ) ≤ 150) := by
  refine ⟨by decide, by decide⟩

/-- **C9 (amended).** The parse path caps every summary at 150 characters
and marks truncation with a trailing `"..."` (regardless of sender
prefixing, which the parse path does not itself guarantee).  The
synchronous fallback path builds a sender-prefixed summary whose text is
truncated so that prefix plus text fit in 100 characters, appends `"..."`
exactly when the text was truncated, and stays within 150 characters
*provided* the sender prefix is at most 100 characters; longer sender
names can push it past 150 (see the counterexample). -/
theorem classification_summary_bounds :
    (∀ d : ParsedClassification,
      (parse_classification_response d).summary.length ≤ 150 ∧
      (150 < d.summary.length →
        (parse_classification_response d).summary = pySliceTo d.summary 147 ++ "...")) ∧
    (∀ (msg : NormalizedMessage) (dec : UrgencyDecision) (conf : ℚ),
      (sync_sender_part msg).length ≤ 100 →
      (classification_agent_sync msg dec conf).summary.length ≤ 150 ∧
      (sync_sender_part msg).length +
        (pySliceTo (pyOrStr msg.content.text msg.content.caption)
          (100 - ((sync_sender_part msg).length : ℤ))).length ≤ 100 ∧
      ((100 - ((sync_sender_part msg).length : ℤ) <
          ((pyOrStr msg.content.text msg.content.caption).length : ℤ)) →
        (classification_agent_sync msg dec conf).summary =
          sync_sender_part msg ++
            (pySliceTo (pyOrStr msg.content.text msg.content.caption)
              (100 - ((sync_sender_part msg).length : ℤ)) ++ "...")) ∧
      (¬ (100 - ((sync_sender_part msg).length : ℤ) <
          ((pyOrStr msg.content.text msg.content.caption).length : ℤ)) →
        (classification_agent_sync msg dec conf).summary =
          sync_sender_part msg ++
            pySliceTo (pyOrStr msg.content.text msg.content.caption)
              (100 - ((sync_sender_part msg).length : ℤ)))) := by
  constructor
  · intro d
    unfold parse_classification_response
    dsimp only
    by_cases hlen : 150 < d.summary.length
    · rw [if_pos hlen]
      constructor
      · have hslice : (pySliceTo d.summary 147).length ≤ 147 :=
          pySliceTo_length_le d.summary 147 (by norm_num)
        rw [String.length_append]
        have : ("..." : String).length = 3 := rfl
        omega
      · intro _
        rfl
    · rw [if_neg hlen]
      exact ⟨by omega, fun hc => absurd hc hlen⟩
  · intro msg dec conf hpre
    have hsum : (classification_agent_sync msg dec conf).summary =
        sync_sender_part msg ++
          (if 100 - ((sync_sender_part msg).length : ℤ) <
              ((pyOrStr msg.content.text msg.content.caption).length : ℤ) then
            pySliceTo (pyOrStr msg.content.text msg.content.caption)
              (100 - ((sync_sender_part msg).length : ℤ)) ++ "..."
          else
            pySliceTo (pyOrStr msg.content.text msg.content.caption)
              (100 - ((sync_sender_part msg).length : ℤ))) := rfl
    have hm : (0 : ℤ) ≤ 100 - ((sync_sender_part msg).length : ℤ) := by
      omega
    have hslice : (pySliceTo (pyOrStr msg.content.text msg.content.caption)
        (100 - ((sync_sender_part msg).length : ℤ))).length ≤
        (100 - ((sync_sender_part msg).length : ℤ)).toNat :=
      pySliceTo_length_le _ _ hm
    have htn : (100 - ((sync_sender_part msg).length : ℤ)).toNat =
        100 - (sync_sender_part msg).length := by
      omega
    rw [hsum]
    by_cases hcond : 100 - ((sync_sender_part msg).length : ℤ) <
        ((pyOrStr msg.content.text msg.content.caption).length : ℤ)
    · rw [if_pos hcond]
      refine ⟨?_, ?_, fun _ => rfl, fun hc => absurd hcond hc⟩
      · rw [String.length_append, String.length_append]
        have h3 : ("..." : String).length = 3 := rfl
        omega
      · omega
    · rw [if_neg hcond]
      refine ⟨?_, ?_, fun hc => absurd hc hcond, fun _ => rfl⟩
      · rw [String.length_append]
        omega
      · omega

/-- Witness for C9: the parse path truncates a 200-character summary to
exactly 150 with an ellipsis, and the sync path on a short sender name
stays within bounds. -/
theorem classification_summary_bounds_witness :
    (parse_classification_response
        { category := "💰 Financeiro", summary := ⟨List.replicate 200 's'⟩,
          routing := "digest", reasoning := "r", confidence := 7/10 }).summary.length
      ≤ 150 ∧
    (classification_agent_sync (msg_private "Olá, tudo certo para amanhã?")
        .not_urgent (7/10)).summary.length ≤ 150 :=
  ⟨(classification_summary_bounds.1
      { category := "💰 Financeiro", summary := ⟨List.replicate 200 's'⟩,
        routing := "digest", reasoning := "r", confidence := 7/10 }).1,
   (classification_summary_bounds.2 (msg_private "Olá, tudo certo para amanhã?")
      .not_urgent (7/10) (by decide)).1⟩
